import Mathlib

/-!
Shallow embedding of `rocketmq-client/src/implementation/client_remoting_processor.rs`
(the broker-to-client callback processor of a message-queue client).

External collaborators that the file consumes but does not implement
(the wire transport, the serde-based custom-header decoding, the
compression codecs, the pending-future registry, the client-instance
registry, the system clock, the network-address parser) are modelled as
data carried in an `Env` record or on the request value; the control
flow, field assignments and logging of the processor itself are
translated statement by statement from the source.
-/

namespace RocketmqClient

/-- Bodies are byte sequences; a byte is a `Nat` below 256 (the bound is
never load-bearing for the processor, which treats bodies as opaque). -/
abbrev ByteList := List Nat

inductive LogLevel where
  | debug
  | info
  | warn
deriving DecidableEq, Repr

structure LogEvent where
  level : LogLevel
  text : String
deriving DecidableEq, Repr

/-- Modelled from the spec: success status of a response
(`RemotingCommand::create_response_command` yields a success-coded response). -/
def SUCCESS : Int := 0

/-- Modelled from the spec: the internal/system-error status code
(`ResponseCode::SystemError`). -/
def SYSTEM_ERROR : Int := 1

/-- Modelled from the spec: the sys-flag compression bit
(`MessageSysFlag::COMPRESSED_FLAG`). -/
def COMPRESSED_FLAG : Int := 1

/-- Modelled from the spec: the compression algorithm id encoded in the
remaining sys-flag bits (`MessageSysFlag::get_compression_type`). -/
def get_compression_type (sys_flag : Int) : Int :=
  Int.land (sys_flag / 256) 7

/-- Modelled from the spec: reserved property key carrying the correlation id
(`MessageConst::PROPERTY_CORRELATION_ID`). -/
def PROPERTY_CORRELATION_ID : String := "CORRELATION_ID"

/-- Modelled from the spec: reserved property key recording the reply arrival
time (`MessageConst::PROPERTY_REPLY_MESSAGE_ARRIVE_TIME`). -/
def PROPERTY_REPLY_MESSAGE_ARRIVE_TIME : String := "ARRIVE_TIME"

/-- Modelled from the spec: reserved property key carrying the producer group
(`MessageConst::PROPERTY_PRODUCER_GROUP`). -/
def PROPERTY_PRODUCER_GROUP : String := "PGROUP"

/-- Modelled from the spec: reserved property key carrying the unique client
message id used as transaction id
(`MessageConst::PROPERTY_UNIQ_CLIENT_MESSAGE_ID_KEYIDX`). -/
def PROPERTY_UNIQ_CLIENT_MESSAGE_ID_KEYIDX : String := "UNIQ_KEY"

/-- Rust panics on `unwrap` of a missing value; the panic text is not
load-bearing, a single constant stands for it. -/
def unwrapPanicMsg : String := "unwrap on a missing value"

/-- First-match lookup in an association list keyed by strings
(models a map lookup). -/
def lookupPair {α : Type} (ps : List (String × α)) (k : String) : Option α :=
  match ps with
  | [] => none
  | (k0, v) :: rest => if k0 = k then some v else lookupPair rest k

/-- Insert-or-overwrite in an association list keyed by strings
(models a map insert: every binding of `k` is replaced by the new one). -/
def putPair {α : Type} (ps : List (String × α)) (k : String) (v : α) :
    List (String × α) :=
  match ps with
  | [] => [(k, v)]
  | (k0, v0) :: rest =>
    if k0 = k then putPair rest k v else (k0, v0) :: putPair rest k v

/-- Replace the value stored at key `k` (first occurrence), leaving every
other entry untouched (models in-place mutation of a shared entry). -/
def updateAt {α : Type} (ps : List (String × α)) (k : String) (v : α) :
    List (String × α) :=
  match ps with
  | [] => []
  | (k0, v0) :: rest =>
    if k0 = k then (k0, v) :: rest else (k0, v0) :: updateAt rest k v

/-- The inner message of a `MessageExt` (topic, flag, body, properties). -/
structure Message where
  topic : String := ""
  flag : Int := 0
  body : Option ByteList := none
  properties : List (String × String) := []
  transactionId : Option String := none
deriving DecidableEq, Repr

/-- `MessageExt`: the decoded application message. Only the fields this
processor reads or writes are modelled; hosts are socket-address strings. -/
structure MessageExt where
  message : Message := {}
  queue_id : Int := 0
  store_timestamp : Int := 0
  born_timestamp : Int := 0
  reconsume_times : Int := 0
  born_host : String := ""
  store_host : String := ""
deriving DecidableEq, Repr

def Message.get_property (m : Message) (k : String) : Option String :=
  lookupPair m.properties k

/-- `MessageAccessor::put_property`: insert or overwrite one property. -/
def Message.put_property (m : Message) (k v : String) : Message :=
  { m with properties := putPair m.properties k v }

/-- `MessageAccessor::set_properties`: replace the whole property map. -/
def Message.set_properties (m : Message) (ps : List (String × String)) :
    Message :=
  { m with properties := ps }

def MessageExt.get_topic (m : MessageExt) : String := m.message.topic

def MessageExt.set_topic (m : MessageExt) (t : String) : MessageExt :=
  { m with message := { m.message with topic := t } }

def MessageExt.set_transaction_id (m : MessageExt) (tid : String) :
    MessageExt :=
  { m with message := { m.message with transactionId := some tid } }

/-- `ReplyMessageRequestHeader`: only the fields this processor reads. -/
structure ReplyMessageRequestHeader where
  topic : String := ""
  queue_id : Int := 0
  store_timestamp : Int := 0
  born_timestamp : Int := 0
  flag : Int := 0
  sys_flag : Int := 0
  born_host : String := ""
  store_host : String := ""
  properties : Option String := none
  reconsume_times : Option Int := none
deriving DecidableEq, Repr

/-- `CheckTransactionStateRequestHeader`: broker-furnished correlation data;
opaque to this processor, which only passes it through to the producer. -/
structure CheckTransactionStateRequestHeader where
  tran_state_table_offset : Int := 0
  commit_log_offset : Int := 0
  msg_id : String := ""
  transaction_id : String := ""
  offset_msg_id : String := ""
deriving DecidableEq, Repr

structure NotifyConsumerIdsChangedRequestHeader where
  consumer_group : String := ""
deriving DecidableEq, Repr

/-- Modelled from the spec: a pending request future from the external
pending-future registry (`RequestResponseFuture`): a slot for the arrived
response message, whether a callback is registered, and a counter of
success-path invocations (to state at-most-once / exactly-once facts). -/
structure RequestResponseFuture where
  responseMessage : Option MessageExt := none
  hasCallback : Bool := false
  successCount : Nat := 0
deriving DecidableEq, Repr

/-- Modelled from the spec: `put_response_message` stores the arrived
message in the response slot. -/
def put_response_message (f : RequestResponseFuture) (m : Option MessageExt) :
    RequestResponseFuture :=
  { f with responseMessage := m }

/-- Modelled from the spec: `on_success` invokes the success path of the
registered callback once. -/
def on_success (f : RequestResponseFuture) : RequestResponseFuture :=
  { f with successCount := f.successCount + 1 }

/-- Modelled from the spec: the client instance aggregate, reduced to the two
facets this processor consults: the configured namespace and which producer
groups have a registered producer. -/
structure ClientInstance where
  namespaceCfg : Option String := none
  producers : List String := []
deriving DecidableEq, Repr

/-- `client_config.get_namespace()`. -/
def ClientInstance.get_namespace (ci : ClientInstance) : Option String :=
  ci.namespaceCfg

/-- Modelled from the spec: `select_producer` resolves the producer
registered under a group name, if any. -/
def select_producer (ci : ClientInstance) (group : String) : Option String :=
  if group ∈ ci.producers then some group else none

/-- Modelled from the spec:
`NamespaceUtil::without_namespace_with_namespace` strips the
`namespace%` prefix from a resource name when present. -/
def without_namespace_with_namespace (resource ns : String) : String :=
  if resource.isEmpty || ns.isEmpty then resource
  else if List.isPrefixOf (ns.data ++ ['%']) resource.data then
    String.mk (resource.data.drop (ns.data.length + 1))
  else resource

/-- The recognized request-code enumeration; `other` stands for every code
outside the recognized set (the catch-all arm of the dispatch match). -/
inductive RequestCode where
  | CheckTransactionState
  | ResetConsumerClientOffset
  | GetConsumerStatusFromClient
  | GetConsumerRunningInfo
  | ConsumeMessageDirectly
  | PushReplyMessageToClient
  | NotifyConsumerIdsChanged
  | other (code : Int)
deriving DecidableEq, Repr

def codeName : RequestCode → String
  | .CheckTransactionState => "CheckTransactionState"
  | .ResetConsumerClientOffset => "ResetConsumerClientOffset"
  | .GetConsumerStatusFromClient => "GetConsumerStatusFromClient"
  | .GetConsumerRunningInfo => "GetConsumerRunningInfo"
  | .ConsumeMessageDirectly => "ConsumeMessageDirectly"
  | .PushReplyMessageToClient => "PushReplyMessageToClient"
  | .NotifyConsumerIdsChanged => "NotifyConsumerIdsChanged"
  | .other c => "Unknown code " ++ toString c

/-- An inbound `RemotingCommand`. Custom-header decoding is external serde;
each `...?` field holds the would-be decode result for the corresponding
header shape (`none` models a decode failure). -/
structure RemotingCommand where
  code : RequestCode
  replyHeader? : Option ReplyMessageRequestHeader := none
  checkHeader? : Option CheckTransactionStateRequestHeader := none
  notifyHeader? : Option NotifyConsumerIdsChangedRequestHeader := none
  body? : Option ByteList := none
deriving DecidableEq, Repr

/-- A response `RemotingCommand` (status code plus optional remark). -/
structure ResponseCommand where
  code : Int := SUCCESS
  remark : Option String := none
deriving DecidableEq, Repr

/-- `RemotingCommand::create_response_command()`: success code, no remark. -/
def create_response_command : ResponseCommand := {}

def ResponseCommand.set_code (r : ResponseCommand) (c : Int) :
    ResponseCommand :=
  { r with code := c }

def ResponseCommand.set_remark (r : ResponseCommand) (s : Option String) :
    ResponseCommand :=
  { r with remark := s }

/-- The environment of one handler invocation: everything the processor
consumes from external collaborators (clock, address parser, codecs,
property-string parser, message decoder, weak client-instance handle,
pending-future registry, remote peer address). -/
structure Env where
  receiveTime : Nat := 0
  parseAddr : String → Option String := fun _ => none
  decompress : Int → ByteList → Option ByteList := fun _ _ => none
  stringToMessageProperties : Option String → List (String × String) :=
    fun _ => []
  decodeMessage : ByteList → Option MessageExt := fun _ => none
  clientInstance? : Option ClientInstance := none
  registry : List (String × RequestResponseFuture) := []
  remoteAddress : String := ""

/-- The observable result of `receive_reply_message`: a panic, an early
error response (correlator never invoked), or a fully assembled message
handed to the correlator together with the returned response. -/
inductive ReplyOutcome where
  | panic (message : String)
  | errorResponse (resp : ResponseCommand)
  | delivered (msg : MessageExt) (resp : ResponseCommand)
deriving DecidableEq, Repr

/-- The assembled message handed to the correlator, when one was. -/
def ReplyOutcome.assembled? : ReplyOutcome → Option MessageExt
  | .delivered m _ => some m
  | _ => none

def ReplyOutcome.isErrorResponse : ReplyOutcome → Bool
  | .errorResponse _ => true
  | _ => false

/-- Lines 108-124: populate topic, queue id, store timestamp, then parse
`born_host` when non-empty; parse failure returns a system-error response
(with the warn log whose text interpolates `store_host`, as the source
does). -/
def parse_born_host (env : Env) (request_header : ReplyMessageRequestHeader)
    (msg : MessageExt) : Except (ReplyOutcome × List LogEvent) MessageExt :=
  if request_header.born_host.isEmpty then .ok msg
  else
    match env.parseAddr request_header.born_host with
    | some value => .ok { msg with born_host := value }
    | none =>
      .error
        (.errorResponse
          ((create_response_command.set_code SYSTEM_ERROR).set_remark
            (some "parse born_host failed")),
         [⟨.warn, "parse born_host failed: " ++ request_header.store_host⟩])

/-- Lines 125-137: parse `store_host` when non-empty; parse failure returns
a system-error response. -/
def parse_store_host (env : Env) (request_header : ReplyMessageRequestHeader)
    (msg : MessageExt) : Except (ReplyOutcome × List LogEvent) MessageExt :=
  if request_header.store_host.isEmpty then .ok msg
  else
    match env.parseAddr request_header.store_host with
    | some value => .ok { msg with store_host := value }
    | none =>
      .error
        (.errorResponse
          ((create_response_command.set_code SYSTEM_ERROR).set_remark
            (some "parse store_host failed")),
         [⟨.warn, "parse store_host failed: " ++ request_header.store_host⟩])

/-- Lines 138-152: when the sys-flag compression bit is set, unwrap the
optional body (panics when absent) and decompress it with the codec chosen
by the compression-type bits; on decompression failure warn and keep the
raw body. When the bit is clear the body field is left untouched (the
source has no else branch). -/
def assemble_body (env : Env) (request_header : ReplyMessageRequestHeader)
    (body : Option ByteList) (msg : MessageExt) :
    Except (ReplyOutcome × List LogEvent) (MessageExt × List LogEvent) :=
  let sys_flag := request_header.sys_flag
  if Int.land sys_flag COMPRESSED_FLAG = COMPRESSED_FLAG then
    match body with
    | none => .error (.panic unwrapPanicMsg, [])
    | some b =>
      match env.decompress (get_compression_type sys_flag) b with
      | some decompressed =>
        .ok ({ msg with message := { msg.message with body := some decompressed } }, [])
      | none =>
        .ok ({ msg with message := { msg.message with body := body } },
             [⟨.warn, "err when uncompress constant"⟩])
  else .ok (msg, [])

/-- Lines 153-164: set the flag, replace the property map with the parsed
properties string, then put the reply-arrival-time property (overwriting
any broker-furnished binding), then set born timestamp and reconsume
times (defaulting to 0). -/
def assemble_tail (env : Env) (request_header : ReplyMessageRequestHeader)
    (msg : MessageExt) : MessageExt :=
  let m1 := { msg with message := { msg.message with flag := request_header.flag } }
  let props := env.stringToMessageProperties request_header.properties
  let m2 := { m1 with message := m1.message.set_properties props }
  let arriveTime := toString env.receiveTime
  let m3 := { m2 with message :=
    m2.message.put_property PROPERTY_REPLY_MESSAGE_ARRIVE_TIME arriveTime }
  { m3 with
    born_timestamp := request_header.born_timestamp
    reconsume_times := request_header.reconsume_times.getD 0 }

/-- Lines 108-111: the freshly defaulted `MessageExt` populated with topic,
queue id and store timestamp taken verbatim from the header. -/
def initial_msg (request_header : ReplyMessageRequestHeader) : MessageExt :=
  { message := { topic := request_header.topic }
    queue_id := request_header.queue_id
    store_timestamp := request_header.store_timestamp }

/-- Lines 97-168, `receive_reply_message`: record the receive time, decode
the reply header (`unwrap`: decode failure panics), assemble the message
through the host, body and tail steps, hand it to the correlator and
return the plain success response. -/
def receive_reply_message (env : Env) (request : RemotingCommand) :
    ReplyOutcome × List LogEvent :=
  let response := create_response_command
  match request.replyHeader? with
  | none => (.panic unwrapPanicMsg, [])
  | some request_header =>
    let msg : MessageExt := initial_msg request_header
    match parse_born_host env request_header msg with
    | .error e => e
    | .ok msg1 =>
      match parse_store_host env request_header msg1 with
      | .error e => e
      | .ok msg2 =>
        match assemble_body env request_header request.body? msg2 with
        | .error e => e
        | .ok (msg3, logs) =>
          (.delivered (assemble_tail env request_header msg3) response, logs)

/-- The correlation id read by the correlator: the reserved property,
empty string when absent (line 171-174). -/
def correlationIdOf (reply_msg : MessageExt) : String :=
  (reply_msg.message.get_property PROPERTY_CORRELATION_ID).getD ""

/-- The future state after completion: response slot filled, success path
invoked once when a callback is registered (lines 179-182). -/
def completeFuture (fut : RequestResponseFuture) (reply_msg : MessageExt) :
    RequestResponseFuture :=
  let f := put_response_message fut (some reply_msg)
  if f.hasCallback then on_success f else f

/-- The warning logged for an unmatched correlation id (lines 184-188). -/
def unmatchedWarn (reply_msg : MessageExt) : LogEvent :=
  ⟨.warn, "receive reply message, but not matched any request, CorrelationId: "
    ++ correlationIdOf reply_msg ++ " , reply from host: "
    ++ reply_msg.born_host⟩

/-- Lines 170-190, `process_reply_message`: look the correlation id up in
the pending-future registry; on a hit complete that future (all other
entries untouched); on a miss warn and leave the registry unchanged. -/
def process_reply_message (reg : List (String × RequestResponseFuture))
    (reply_msg : MessageExt) :
    List (String × RequestResponseFuture) × List LogEvent :=
  let correlation_id := correlationIdOf reply_msg
  match lookupPair reg correlation_id with
  | some fut =>
    (updateAt reg correlation_id (completeFuture fut reply_msg), [])
  | none => (reg, [unmatchedWarn reply_msg])

/-- The observable effect of `check_transaction_state`: a panic, exactly one
invocation of the resolved producer's check entry point (with the remote
address, the prepared message and the decoded check header), or no
invocation at all. -/
inductive CheckEffect where
  | panic (message : String)
  | invoked (producer : String) (addr : String) (msg : MessageExt)
      (header : CheckTransactionStateRequestHeader)
  | skipped
deriving DecidableEq, Repr

/-- The warning logged when no producer group resolves (lines 261, 264). -/
def pickFailWarn : LogEvent :=
  ⟨.warn, "checkTransactionState, pick producer group failed"⟩

/-- Lines 232-249: strip the configured namespace from the topic in place
when a namespace is configured, then attach the unique client message id
as transaction id when present and non-empty. -/
def prepare_message (client_instance : ClientInstance)
    (message_ext : MessageExt) : MessageExt :=
  let m1 :=
    match client_instance.get_namespace with
    | some _ =>
      message_ext.set_topic
        (without_namespace_with_namespace message_ext.get_topic
          ((client_instance.get_namespace).getD ""))
    | none => message_ext
  match m1.message.get_property PROPERTY_UNIQ_CLIENT_MESSAGE_ID_KEYIDX with
  | some transaction_id =>
    if ¬ transaction_id.isEmpty then m1.set_transaction_id transaction_id
    else m1
  | none => m1

/-- Lines 213-271, `check_transaction_state`: decode the check header
(`unwrap`: decode failure panics), unwrap the body (panics when absent),
decode the embedded message; on success and a live client instance,
prepare the message, read the producer-group property and resolve the
producer; invoke it when found, otherwise warn and stop. The Rust
function always returns `Ok(None)` on every non-panicking path. -/
def check_transaction_state (env : Env) (request : RemotingCommand) :
    CheckEffect × List LogEvent :=
  match request.checkHeader? with
  | none => (.panic unwrapPanicMsg, [])
  | some request_header =>
    match request.body? with
    | none => (.panic unwrapPanicMsg, [])
    | some body =>
      match env.decodeMessage body with
      | some message_ext =>
        match env.clientInstance? with
        | some client_instance =>
          let message_ext := prepare_message client_instance message_ext
          match message_ext.message.get_property PROPERTY_PRODUCER_GROUP with
          | some group =>
            match select_producer client_instance group with
            | some producer =>
              (.invoked producer env.remoteAddress message_ext request_header,
               [])
            | none => (.skipped, [pickFailWarn])
          | none => (.skipped, [pickFailWarn])
        | none => (.skipped, [])
      | none => (.skipped, [⟨.warn, "checkTransactionState, decode message failed"⟩])

/-- Outcome of a dispatched request: a panic, or `Ok` with an optional
response command. -/
inductive ProcOutcome where
  | panic (message : String)
  | ok (resp : Option ResponseCommand)
deriving DecidableEq, Repr

/-- Lines 192-211, `notify_consumer_ids_changed`: decode the notify header
(`unwrap`: decode failure panics), log the notification with the remote
peer address and the consumer group, then trigger an immediate rebalance
when the weak client-instance handle upgrades; returns `Ok(None)`. The
`Bool` reports whether a rebalance was triggered. -/
def notify_consumer_ids_changed (env : Env) (request : RemotingCommand) :
    ProcOutcome × Bool × List LogEvent :=
  match request.notifyHeader? with
  | none => (.panic unwrapPanicMsg, false, [])
  | some request_header =>
    let logs : List LogEvent :=
      [⟨.info, "receive brokers notification " ++ env.remoteAddress
        ++ ", the consumer group: " ++ request_header.consumer_group
        ++ " changed, rebalance immediately"⟩]
    match env.clientInstance? with
    | some _ => (.ok none, true, logs)
    | none => (.ok none, false, logs)

/-- Everything observable about one trip through the dispatcher: the
returned outcome, the pending-future registry afterwards, the producer
invocation performed (if any), whether a rebalance was triggered, and
the log events emitted. -/
structure ProcResult where
  outcome : ProcOutcome
  registry : List (String × RequestResponseFuture)
  invocation : Option (String × String × MessageExt × CheckTransactionStateRequestHeader)
  rebalanced : Bool
  logs : List LogEvent
deriving DecidableEq, Repr

/-- Lines 59-93, `process_request`: log the resolved code, then dispatch on
it; the four recognized-but-unimplemented codes panic with a
not-implemented message (`unimplemented!`), any unrecognized code logs an
informational message and yields `Ok(None)` with no other effect. -/
def process_request (env : Env) (request : RemotingCommand) : ProcResult :=
  let request_code := request.code
  let baseLog : LogEvent := ⟨.info, "process_request: " ++ codeName request_code⟩
  match request_code with
  | .CheckTransactionState =>
    let r := check_transaction_state env request
    match r.1 with
    | .panic s =>
      { outcome := .panic s, registry := env.registry, invocation := none,
        rebalanced := false, logs := baseLog :: r.2 }
    | .invoked p a m h =>
      { outcome := .ok none, registry := env.registry,
        invocation := some (p, a, m, h), rebalanced := false,
        logs := baseLog :: r.2 }
    | .skipped =>
      { outcome := .ok none, registry := env.registry, invocation := none,
        rebalanced := false, logs := baseLog :: r.2 }
  | .ResetConsumerClientOffset =>
    { outcome := .panic "not implemented: ResetConsumerClientOffset",
      registry := env.registry, invocation := none, rebalanced := false,
      logs := [baseLog] }
  | .GetConsumerStatusFromClient =>
    { outcome := .panic "not implemented: GetConsumerStatusFromClient",
      registry := env.registry, invocation := none, rebalanced := false,
      logs := [baseLog] }
  | .GetConsumerRunningInfo =>
    { outcome := .panic "not implemented: GetConsumerRunningInfo",
      registry := env.registry, invocation := none, rebalanced := false,
      logs := [baseLog] }
  | .ConsumeMessageDirectly =>
    { outcome := .panic "not implemented: ConsumeMessageDirectly",
      registry := env.registry, invocation := none, rebalanced := false,
      logs := [baseLog] }
  | .PushReplyMessageToClient =>
    let r := receive_reply_message env request
    match r.1 with
    | .panic s =>
      { outcome := .panic s, registry := env.registry, invocation := none,
        rebalanced := false, logs := baseLog :: r.2 }
    | .errorResponse resp =>
      { outcome := .ok (some resp), registry := env.registry,
        invocation := none, rebalanced := false, logs := baseLog :: r.2 }
    | .delivered m resp =>
      let c := process_reply_message env.registry m
      { outcome := .ok (some resp), registry := c.1, invocation := none,
        rebalanced := false, logs := baseLog :: (r.2 ++ c.2) }
  | .NotifyConsumerIdsChanged =>
    let r := notify_consumer_ids_changed env request
    { outcome := r.1, registry := env.registry, invocation := none,
      rebalanced := r.2.1, logs := baseLog :: r.2.2 }
  | .other c =>
    { outcome := .ok none, registry := env.registry, invocation := none,
      rebalanced := false,
      logs := [baseLog, ⟨.info, "Unknown request code: " ++ codeName (.other c)⟩] }

/-! ### Concrete fixtures

Closed sample inputs used by the evaluation theorems and witnesses. -/

/-- A client instance configured with namespace `NS` and one producer
registered under group `PG1`. -/
def ciW : ClientInstance := { namespaceCfg := some "NS", producers := ["PG1"] }

/-- The embedded message decoded out of a transaction-check body: topic is
namespace-qualified and the reserved producer-group and unique-id
properties are present. -/
def mEmb : MessageExt :=
  { message := { topic := "NS%TopicA"
                 properties := [(PROPERTY_PRODUCER_GROUP, "PG1"),
                                (PROPERTY_UNIQ_CLIENT_MESSAGE_ID_KEYIDX, "u1")] } }

/-- A sample environment: clock at 42, one parseable address, a codec that
only decompresses the body `[9]`, a properties string `P` that carries a
correlation id and a stale broker-furnished arrival time, a decoder that
only accepts the body `[1]`, the client instance `ciW`, and one pending
future registered under `cid-1`. -/
def envW : Env :=
  { receiveTime := 42
    parseAddr := fun s => if s = "127.0.0.1:80" then some s else none
    decompress := fun _ b => if b = [9] then some [7, 7] else none
    stringToMessageProperties := fun os =>
      match os with
      | some s =>
        if s = "P" then
          [(PROPERTY_CORRELATION_ID, "cid-1"),
           (PROPERTY_REPLY_MESSAGE_ARRIVE_TIME, "stale")]
        else []
      | none => []
    decodeMessage := fun b => if b = [1] then some mEmb else none
    clientInstance? := some ciW
    registry := [("cid-1", { hasCallback := true })]
    remoteAddress := "10.0.0.1:5" }

/-- An empty environment (all defaults). -/
def envEmpty : Env := {}

/-- Reply header with the compression bit clear and a properties string. -/
def rhU : ReplyMessageRequestHeader := { topic := "T", properties := some "P" }

/-- Reply request carrying `rhU` and a non-empty body. -/
def reqU : RemotingCommand :=
  { code := .PushReplyMessageToClient, replyHeader? := some rhU
    body? := some [1, 2, 3] }

/-- Reply header with the compression bit set. -/
def rhC : ReplyMessageRequestHeader := { topic := "T", sys_flag := 1 }

/-- Compressed reply request whose body the sample codec accepts. -/
def reqC : RemotingCommand :=
  { code := .PushReplyMessageToClient, replyHeader? := some rhC
    body? := some [9] }

/-- Compressed reply request whose body the sample codec rejects. -/
def reqCbad : RemotingCommand :=
  { code := .PushReplyMessageToClient, replyHeader? := some rhC
    body? := some [5] }

/-- Compressed reply request with no body at all. -/
def reqNB : RemotingCommand :=
  { code := .PushReplyMessageToClient, replyHeader? := some rhC }

/-- Reply header whose born-host does not parse as an address. -/
def rhBad : ReplyMessageRequestHeader :=
  { topic := "T", born_host := "not-an-address" }

/-- Reply request carrying the malformed born-host header. -/
def reqBad : RemotingCommand :=
  { code := .PushReplyMessageToClient, replyHeader? := some rhBad }

/-- Reply request whose custom header does not decode. -/
def reqNoHeader : RemotingCommand := { code := .PushReplyMessageToClient }

/-- The message `receive_reply_message envW reqU` assembles: topic from the
header, correlation id from the properties string, arrival time
overwritten with the local clock, and (bug) no body. -/
def msgUDelivered : MessageExt :=
  { message := { topic := "T"
                 properties := [(PROPERTY_CORRELATION_ID, "cid-1"),
                                (PROPERTY_REPLY_MESSAGE_ARRIVE_TIME, "42")] } }

/-- A decoded transaction-check header sample. -/
def hdrW : CheckTransactionStateRequestHeader := { msg_id := "m1" }

/-- A transaction-check request whose body the sample decoder accepts. -/
def reqCheck : RemotingCommand :=
  { code := .CheckTransactionState, checkHeader? := some hdrW
    body? := some [1] }

/-- A pending future holding a callback. -/
def futW : RequestResponseFuture := { hasCallback := true }

/-- A registry with exactly one pending future, under `cid-1`. -/
def regW : List (String × RequestResponseFuture) := [("cid-1", futW)]

/-- A reply message whose correlation-id property is `cid-1`. -/
def msgCid : MessageExt :=
  { message := { properties := [(PROPERTY_CORRELATION_ID, "cid-1")] } }

/-- A reply message whose correlation-id property matches no future. -/
def msgMiss : MessageExt :=
  { message := { properties := [(PROPERTY_CORRELATION_ID, "cid-missing")] } }

/-! ### Helper lemmas -/

theorem lookupPair_putPair_self {α : Type} (ps : List (String × α)) (k : String) (v : α) :
    lookupPair (putPair ps k v) k = some v := by
  induction ps with
  | nil => simp [putPair, lookupPair]
  | cons p rest ih =>
    obtain ⟨k0, v0⟩ := p
    by_cases h : k0 = k
    · simpa [putPair, h] using ih
    · simp [putPair, lookupPair, h, ih]

theorem lookupPair_updateAt_ne {α : Type} (ps : List (String × α)) (k k2 : String)
    (v : α) (h : k2 ≠ k) :
    lookupPair (updateAt ps k v) k2 = lookupPair ps k2 := by
  induction ps with
  | nil => simp [updateAt]
  | cons p rest ih =>
    obtain ⟨k0, v0⟩ := p
    by_cases hk : k0 = k
    · subst hk
      have hne : ¬ k0 = k2 := fun hh => h hh.symm
      simp [updateAt, lookupPair, hne]
    · simp [updateAt, lookupPair, hk, ih]

theorem assemble_tail_arrive_time (env : Env) (rh : ReplyMessageRequestHeader)
    (msg : MessageExt) :
    (assemble_tail env rh msg).message.get_property
        PROPERTY_REPLY_MESSAGE_ARRIVE_TIME
      = some (toString env.receiveTime) := by
  simp [assemble_tail, Message.get_property, Message.put_property,
    Message.set_properties, lookupPair_putPair_self]

theorem assemble_tail_body (env : Env) (rh : ReplyMessageRequestHeader)
    (msg : MessageExt) :
    (assemble_tail env rh msg).message.body = msg.message.body := by
  simp [assemble_tail, Message.put_property, Message.set_properties]

theorem parse_born_host_passes (env : Env) (rh : ReplyMessageRequestHeader)
    (msg : MessageExt)
    (hb : rh.born_host.isEmpty = true ∨ (env.parseAddr rh.born_host).isSome = true) :
    ∃ msg2, parse_born_host env rh msg = .ok msg2 ∧ msg2.message = msg.message := by
  rcases hb with hb | hb
  · exact ⟨msg, by simp [parse_born_host, hb], rfl⟩
  · rcases Option.isSome_iff_exists.mp hb with ⟨v, hv⟩
    by_cases he : rh.born_host.isEmpty = true
    · exact ⟨msg, by simp [parse_born_host, he], rfl⟩
    · exact ⟨{ msg with born_host := v }, by simp [parse_born_host, he, hv], rfl⟩

theorem parse_store_host_passes (env : Env) (rh : ReplyMessageRequestHeader)
    (msg : MessageExt)
    (hb : rh.store_host.isEmpty = true ∨ (env.parseAddr rh.store_host).isSome = true) :
    ∃ msg2, parse_store_host env rh msg = .ok msg2 ∧ msg2.message = msg.message := by
  rcases hb with hb | hb
  · exact ⟨msg, by simp [parse_store_host, hb], rfl⟩
  · rcases Option.isSome_iff_exists.mp hb with ⟨v, hv⟩
    by_cases he : rh.store_host.isEmpty = true
    · exact ⟨msg, by simp [parse_store_host, he], rfl⟩
    · exact ⟨{ msg with store_host := v }, by simp [parse_store_host, he, hv], rfl⟩

theorem parse_born_host_fails (env : Env) (rh : ReplyMessageRequestHeader)
    (msg : MessageExt)
    (h1 : rh.born_host.isEmpty = false) (h2 : env.parseAddr rh.born_host = none) :
    parse_born_host env rh msg = .error
      (.errorResponse ((create_response_command.set_code SYSTEM_ERROR).set_remark
          (some "parse born_host failed")),
       [⟨.warn, "parse born_host failed: " ++ rh.store_host⟩]) := by
  simp [parse_born_host, h1, h2]

theorem parse_store_host_fails (env : Env) (rh : ReplyMessageRequestHeader)
    (msg : MessageExt)
    (h1 : rh.store_host.isEmpty = false) (h2 : env.parseAddr rh.store_host = none) :
    parse_store_host env rh msg = .error
      (.errorResponse ((create_response_command.set_code SYSTEM_ERROR).set_remark
          (some "parse store_host failed")),
       [⟨.warn, "parse store_host failed: " ++ rh.store_host⟩]) := by
  simp [parse_store_host, h1, h2]

theorem parse_born_host_error_shape (env : Env) (rh : ReplyMessageRequestHeader)
    (msg : MessageExt) (e : ReplyOutcome × List LogEvent)
    (he : parse_born_host env rh msg = .error e) :
    ∃ r, e.1 = .errorResponse r := by
  unfold parse_born_host at he
  split at he
  · simp at he
  · split at he
    · simp at he
    · exact ⟨_, by injection he with h; rw [← h]⟩

theorem parse_store_host_error_shape (env : Env) (rh : ReplyMessageRequestHeader)
    (msg : MessageExt) (e : ReplyOutcome × List LogEvent)
    (he : parse_store_host env rh msg = .error e) :
    ∃ r, e.1 = .errorResponse r := by
  unfold parse_store_host at he
  split at he
  · simp at he
  · split at he
    · simp at he
    · exact ⟨_, by injection he with h; rw [← h]⟩

theorem assemble_body_error_shape (env : Env) (rh : ReplyMessageRequestHeader)
    (body : Option ByteList) (msg : MessageExt) (e : ReplyOutcome × List LogEvent)
    (he : assemble_body env rh body msg = .error e) :
    e = (.panic unwrapPanicMsg, []) := by
  unfold assemble_body at he
  by_cases h : Int.land rh.sys_flag COMPRESSED_FLAG = COMPRESSED_FLAG
  · cases body with
    | none =>
      simp only [h, if_true] at he
      simp at he
      exact he.symm
    | some b =>
      cases hd : env.decompress (get_compression_type rh.sys_flag) b with
      | none => simp [h, hd] at he
      | some d => simp [h, hd] at he
  · simp [h] at he

theorem assemble_body_not_compressed (env : Env) (rh : ReplyMessageRequestHeader)
    (body : Option ByteList) (msg : MessageExt)
    (h : ¬ Int.land rh.sys_flag COMPRESSED_FLAG = COMPRESSED_FLAG) :
    assemble_body env rh body msg = .ok (msg, []) := by
  simp [assemble_body, h]

theorem assemble_body_missing (env : Env) (rh : ReplyMessageRequestHeader)
    (msg : MessageExt)
    (h : Int.land rh.sys_flag COMPRESSED_FLAG = COMPRESSED_FLAG) :
    assemble_body env rh none msg = .error (.panic unwrapPanicMsg, []) := by
  simp [assemble_body, h]

theorem assemble_body_compressed (env : Env) (rh : ReplyMessageRequestHeader)
    (b : ByteList) (msg : MessageExt)
    (h : Int.land rh.sys_flag COMPRESSED_FLAG = COMPRESSED_FLAG) :
    assemble_body env rh (some b) msg =
      (match env.decompress (get_compression_type rh.sys_flag) b with
       | some d => .ok ({ msg with message := { msg.message with body := some d } }, [])
       | none => .ok ({ msg with message := { msg.message with body := some b } },
                      [⟨.warn, "err when uncompress constant"⟩])) := by
  simp [assemble_body, h]

theorem receive_reply_message_eq (env : Env) (req : RemotingCommand)
    (rh : ReplyMessageRequestHeader) (hdec : req.replyHeader? = some rh) :
    receive_reply_message env req =
      (match parse_born_host env rh (initial_msg rh) with
       | .error e => e
       | .ok msg1 =>
         match parse_store_host env rh msg1 with
         | .error e => e
         | .ok msg2 =>
           match assemble_body env rh req.body? msg2 with
           | .error e => e
           | .ok (msg3, logs) =>
             (.delivered (assemble_tail env rh msg3) create_response_command,
              logs)) := by
  unfold receive_reply_message
  rw [hdec]

theorem check_transaction_state_eq (env : Env) (req : RemotingCommand)
    (hdr : CheckTransactionStateRequestHeader) (b : ByteList) (m : MessageExt)
    (ci : ClientInstance)
    (h1 : req.checkHeader? = some hdr) (h2 : req.body? = some b)
    (h3 : env.decodeMessage b = some m) (h4 : env.clientInstance? = some ci) :
    check_transaction_state env req =
      (match (prepare_message ci m).message.get_property PROPERTY_PRODUCER_GROUP with
       | some group =>
         match select_producer ci group with
         | some producer =>
           (.invoked producer env.remoteAddress (prepare_message ci m) hdr, [])
         | none => (.skipped, [pickFailWarn])
       | none => (.skipped, [pickFailWarn])) := by
  unfold check_transaction_state
  rw [h1]
  dsimp only
  rw [h2]
  dsimp only
  rw [h3]
  dsimp only
  rw [h4]

theorem prepare_message_topic (ci : ClientInstance) (m : MessageExt) :
    (prepare_message ci m).get_topic =
      (match ci.get_namespace with
       | some _ =>
         without_namespace_with_namespace m.get_topic ((ci.get_namespace).getD "")
       | none => m.get_topic) := by
  unfold prepare_message
  cases hn : ci.get_namespace with
  | none =>
    dsimp only
    cases hp : m.message.get_property PROPERTY_UNIQ_CLIENT_MESSAGE_ID_KEYIDX with
    | none => rfl
    | some tid =>
      by_cases ht : tid.isEmpty = true <;>
        simp [ht, MessageExt.set_transaction_id, MessageExt.get_topic]
  | some ns =>
    dsimp only
    cases hp : (m.set_topic (without_namespace_with_namespace m.get_topic
        ((some ns).getD ""))).message.get_property
        PROPERTY_UNIQ_CLIENT_MESSAGE_ID_KEYIDX with
    | none => simp [MessageExt.set_topic, MessageExt.get_topic]
    | some tid =>
      by_cases ht : tid.isEmpty = true <;>
        simp [ht, MessageExt.set_transaction_id, MessageExt.set_topic,
          MessageExt.get_topic]

theorem receive_reply_message_delivered_shape (env : Env) (req : RemotingCommand)
    (m : MessageExt) (resp : ResponseCommand)
    (hdel : (receive_reply_message env req).1 = .delivered m resp) :
    ∃ rh msg3, req.replyHeader? = some rh ∧
      m = assemble_tail env rh msg3 ∧ resp = create_response_command := by
  cases hR : req.replyHeader? with
  | none =>
    unfold receive_reply_message at hdel
    rw [hR] at hdel
    simp at hdel
  | some rh =>
    rw [receive_reply_message_eq env req rh hR] at hdel
    cases hb : parse_born_host env rh (initial_msg rh) with
    | error e =>
      rw [hb] at hdel
      obtain ⟨r, hr⟩ := parse_born_host_error_shape env rh _ e hb
      dsimp only at hdel
      rw [hr] at hdel
      simp at hdel
    | ok msg1 =>
      rw [hb] at hdel
      dsimp only at hdel
      cases hs : parse_store_host env rh msg1 with
      | error e =>
        rw [hs] at hdel
        obtain ⟨r, hr⟩ := parse_store_host_error_shape env rh _ e hs
        dsimp only at hdel
        rw [hr] at hdel
        simp at hdel
      | ok msg2 =>
        rw [hs] at hdel
        dsimp only at hdel
        cases hab : assemble_body env rh req.body? msg2 with
        | error e =>
          rw [hab] at hdel
          have hsh := assemble_body_error_shape env rh req.body? msg2 e hab
          dsimp only at hdel
          rw [hsh] at hdel
          simp at hdel
        | ok p =>
          obtain ⟨msg3, logs⟩ := p
          rw [hab] at hdel
          dsimp only at hdel
          injection hdel with hm hresp
          exact ⟨rh, msg3, rfl, hm.symm, hresp.symm⟩

/-! ### Claim theorems -/

/-- C1: the claim states that for a reply request whose sys-flag lacks the
compression bit, the assembled message body equals the request body
verbatim. The code never assigns the body on the uncompressed path (the
`if` at line 141 has no else branch), so the assembled body stays `none`:
evaluated here at a request whose body is `[1, 2, 3]` and whose sys-flag
is 0, the assembled message is `msgUDelivered` with body `none`. -/
theorem C1_uncompressed_body_dropped :
    reqU.body? = some [1, 2, 3] ∧
    Int.land rhU.sys_flag COMPRESSED_FLAG ≠ COMPRESSED_FLAG ∧
    ((receive_reply_message envW reqU).1).assembled? = some msgUDelivered ∧
    msgUDelivered.message.body = none := by
  refine ⟨rfl, by decide, ?_, rfl⟩
  rfl

/-- C2 counterexample: at a reply request whose custom header does not
decode, `receive_reply_message` panics (the outcome is the unwrap panic),
it does not return an internal/system-error response, and no message
reaches the correlator — refuting the claim that a decode failure yields
a system-error response confined to this request. -/
theorem C2_decode_failure_counterexample :
    (receive_reply_message envEmpty reqNoHeader).1 = .panic unwrapPanicMsg ∧
    ((receive_reply_message envEmpty reqNoHeader).1).isErrorResponse = false ∧
    ((receive_reply_message envEmpty reqNoHeader).1).assembled? = none :=
  ⟨rfl, rfl, rfl⟩

/-- C2 (amended): for every reply-message request whose custom header cannot
be decoded into the Reply Message Header shape, `receive_reply_message`
panics on the unwrap of the failed decode and returns no response at all
(neither a system-error response nor any other). -/
theorem C2_header_decode_panics (env : Env) (req : RemotingCommand)
    (h : req.replyHeader? = none) :
    receive_reply_message env req = (.panic unwrapPanicMsg, []) := by
  unfold receive_reply_message
  rw [h]

/-- C2 witness: the amended claim at the concrete undecodable request. -/
theorem C2_header_decode_panics_witness :
    receive_reply_message envEmpty reqNoHeader = (.panic unwrapPanicMsg, []) :=
  C2_header_decode_panics envEmpty reqNoHeader rfl

/-- C3: for every reply request with the compression bit set (that decodes
and passes host validation, with a body present), the assembled message
body is the decompression of the body when the codec succeeds, and the
raw body with a warning logged when the codec fails. -/
theorem C3_compressed_reply_body (env : Env) (req : RemotingCommand)
    (rh : ReplyMessageRequestHeader) (b : ByteList)
    (hdec : req.replyHeader? = some rh)
    (hflag : Int.land rh.sys_flag COMPRESSED_FLAG = COMPRESSED_FLAG)
    (hbody : req.body? = some b)
    (hborn : rh.born_host.isEmpty = true ∨ (env.parseAddr rh.born_host).isSome = true)
    (hstore : rh.store_host.isEmpty = true ∨ (env.parseAddr rh.store_host).isSome = true) :
    ∃ m resp,
      (receive_reply_message env req).1 = .delivered m resp ∧
      m.message.body =
        some ((env.decompress (get_compression_type rh.sys_flag) b).getD b) ∧
      (env.decompress (get_compression_type rh.sys_flag) b = none →
        ⟨.warn, "err when uncompress constant"⟩ ∈ (receive_reply_message env req).2) := by
  obtain ⟨msg1, hb, hm1⟩ := parse_born_host_passes env rh (initial_msg rh) hborn
  obtain ⟨msg2, hs, hm2⟩ := parse_store_host_passes env rh msg1 hstore
  rw [receive_reply_message_eq env req rh hdec, hb]
  dsimp only
  rw [hs]
  dsimp only
  rw [hbody, assemble_body_compressed env rh b msg2 hflag]
  cases hd : env.decompress (get_compression_type rh.sys_flag) b with
  | some d =>
    dsimp only
    refine ⟨_, _, rfl, ?_, ?_⟩
    · simp [assemble_tail_body]
    · intro hcon
      cases hcon
  | none =>
    dsimp only
    refine ⟨_, _, rfl, ?_, ?_⟩
    · simp [assemble_tail_body]
    · intro hcon
      simp

/-- C3 witness: at the sample compressed request the codec succeeds, so the
assembled body equals the decompressed bytes. -/
theorem C3_compressed_reply_body_witness :
    ∃ m resp,
      (receive_reply_message envW reqC).1 = .delivered m resp ∧
      m.message.body =
        some ((envW.decompress (get_compression_type rhC.sys_flag) [9]).getD [9]) ∧
      (envW.decompress (get_compression_type rhC.sys_flag) [9] = none →
        ⟨.warn, "err when uncompress constant"⟩ ∈ (receive_reply_message envW reqC).2) :=
  C3_compressed_reply_body envW reqC rhC [9] rfl (by decide) rfl
    (Or.inl (by decide)) (Or.inl (by decide))

/-- C4: a reply header whose born-host (or, born-host passing, store-host)
is non-empty and fails address parsing yields a system-error response
whose remark names the failing field, and no message is handed to the
correlator. -/
theorem C4_malformed_host_fail_fast (env : Env) (req : RemotingCommand)
    (rh : ReplyMessageRequestHeader)
    (hdec : req.replyHeader? = some rh)
    (hbad : (rh.born_host.isEmpty = false ∧ env.parseAddr rh.born_host = none) ∨
            ((rh.born_host.isEmpty = true ∨ (env.parseAddr rh.born_host).isSome = true) ∧
             rh.store_host.isEmpty = false ∧ env.parseAddr rh.store_host = none)) :
    (receive_reply_message env req).1 =
      .errorResponse ((create_response_command.set_code SYSTEM_ERROR).set_remark
        (some (if rh.born_host.isEmpty = false ∧ env.parseAddr rh.born_host = none
               then "parse born_host failed" else "parse store_host failed"))) ∧
    ((receive_reply_message env req).1).assembled? = none := by
  rcases hbad with ⟨h1, h2⟩ | ⟨hpass, h1, h2⟩
  · rw [receive_reply_message_eq env req rh hdec,
      parse_born_host_fails env rh (initial_msg rh) h1 h2]
    dsimp only
    rw [if_pos ⟨h1, h2⟩]
    exact ⟨rfl, rfl⟩
  · obtain ⟨msg1, hb, _⟩ := parse_born_host_passes env rh (initial_msg rh) hpass
    rw [receive_reply_message_eq env req rh hdec, hb]
    dsimp only
    rw [parse_store_host_fails env rh msg1 h1 h2]
    dsimp only
    have hnb : ¬ (rh.born_host.isEmpty = false ∧ env.parseAddr rh.born_host = none) := by
      rcases hpass with hp | hp
      · intro hc
        rw [hp] at hc
        exact absurd hc.1 (by simp)
      · intro hc
        rw [hc.2] at hp
        simp at hp
    rw [if_neg hnb]
    exact ⟨rfl, rfl⟩

/-- C4 witness: the sample request with born-host `not-an-address`. -/
theorem C4_malformed_host_witness :
    (receive_reply_message envW reqBad).1 =
      .errorResponse ((create_response_command.set_code SYSTEM_ERROR).set_remark
        (some (if rhBad.born_host.isEmpty = false ∧ envW.parseAddr rhBad.born_host = none
               then "parse born_host failed" else "parse store_host failed"))) ∧
    ((receive_reply_message envW reqBad).1).assembled? = none :=
  C4_malformed_host_fail_fast envW reqBad rhBad rfl
    (Or.inl ⟨by decide, by decide⟩)

/-- C5: every message that reaches assembly carries the reserved
receive-timestamp property equal to the timestamp recorded at the start
of handling, whatever the broker-furnished properties string contained
(the property is written last and overwrites any prior binding). -/
theorem C5_arrival_time_overwritten (env : Env) (req : RemotingCommand)
    (m : MessageExt) (resp : ResponseCommand)
    (hdel : (receive_reply_message env req).1 = .delivered m resp) :
    m.message.get_property PROPERTY_REPLY_MESSAGE_ARRIVE_TIME
      = some (toString env.receiveTime) := by
  obtain ⟨rh, msg3, hR, hm, hresp⟩ :=
    receive_reply_message_delivered_shape env req m resp hdel
  rw [hm]
  exact assemble_tail_arrive_time env rh msg3

/-- C5 witness: the assembled sample message carries arrival time 42 even
though the broker-furnished properties string bound the key to `stale`. -/
theorem C5_arrival_time_overwritten_witness :
    msgUDelivered.message.get_property PROPERTY_REPLY_MESSAGE_ARRIVE_TIME
      = some (toString envW.receiveTime) :=
  C5_arrival_time_overwritten envW reqU msgUDelivered create_response_command
    (by decide)

/-- C6: the handler always returns the plain success response for every
delivered reply; a registered future under the reply's correlation id has
its response slot set to the assembled message with the success path
invoked exactly once when a callback is held, every other future is
untouched; an unmatched correlation id only logs a warning naming the id
and the replying host and leaves the registry unchanged. -/
theorem C6_reply_correlation :
    (∀ env req m resp,
        (receive_reply_message env req).1 = .delivered m resp →
        resp = create_response_command) ∧
    (∀ reg msg fut, lookupPair reg (correlationIdOf msg) = some fut →
        process_reply_message reg msg =
          (updateAt reg (correlationIdOf msg) (completeFuture fut msg), []) ∧
        (completeFuture fut msg).responseMessage = some msg ∧
        (completeFuture fut msg).successCount =
          fut.successCount + (if fut.hasCallback then 1 else 0) ∧
        (∀ k, k ≠ correlationIdOf msg →
          lookupPair (process_reply_message reg msg).1 k = lookupPair reg k)) ∧
    (∀ reg msg, lookupPair reg (correlationIdOf msg) = none →
        process_reply_message reg msg = (reg, [unmatchedWarn msg])) := by
  refine ⟨?_, ?_, ?_⟩
  · intro env req m resp hdel
    obtain ⟨rh, msg3, hR, hm, hresp⟩ :=
      receive_reply_message_delivered_shape env req m resp hdel
    exact hresp
  · intro reg msg fut hlook
    have hpm : process_reply_message reg msg =
        (updateAt reg (correlationIdOf msg) (completeFuture fut msg), []) := by
      unfold process_reply_message
      dsimp only
      rw [hlook]
    refine ⟨hpm, ?_, ?_, ?_⟩
    · by_cases hc : fut.hasCallback = true <;>
        simp [completeFuture, put_response_message, on_success, hc]
    · by_cases hc : fut.hasCallback = true <;>
        simp [completeFuture, put_response_message, on_success, hc]
    · intro k hk
      rw [hpm]
      dsimp only
      exact lookupPair_updateAt_ne reg (correlationIdOf msg) k
        (completeFuture fut msg) hk
  · intro reg msg hlook
    unfold process_reply_message
    dsimp only
    rw [hlook]

/-- C6 witness: the future registered under `cid-1` is completed by a reply
carrying that correlation id; a reply carrying `cid-missing` leaves the
registry unchanged and only logs the unmatched warning. -/
theorem C6_reply_correlation_witness :
    process_reply_message regW msgCid =
      (updateAt regW (correlationIdOf msgCid) (completeFuture futW msgCid), []) ∧
    (completeFuture futW msgCid).responseMessage = some msgCid ∧
    process_reply_message regW msgMiss = (regW, [unmatchedWarn msgMiss]) :=
  ⟨(C6_reply_correlation.2.1 regW msgCid futW (by decide)).1,
   (C6_reply_correlation.2.1 regW msgCid futW (by decide)).2.1,
   C6_reply_correlation.2.2 regW msgMiss (by decide)⟩

/-- C7: for a transaction-check request whose embedded message decodes and
whose client instance is live, the producer registered under the
message's producer-group property is invoked exactly once with the remote
address, the prepared message and the decoded check header; when the
property is absent or no producer resolves, nothing is invoked and the
pick-failed warning is the only observable effect. -/
theorem C7_transaction_check_routing (env : Env) (req : RemotingCommand)
    (hdr : CheckTransactionStateRequestHeader) (b : ByteList) (m : MessageExt)
    (ci : ClientInstance)
    (h1 : req.checkHeader? = some hdr) (h2 : req.body? = some b)
    (h3 : env.decodeMessage b = some m) (h4 : env.clientInstance? = some ci) :
    (∀ g, (prepare_message ci m).message.get_property PROPERTY_PRODUCER_GROUP = some g →
        g ∈ ci.producers →
        check_transaction_state env req =
          (.invoked g env.remoteAddress (prepare_message ci m) hdr, [])) ∧
    ((prepare_message ci m).message.get_property PROPERTY_PRODUCER_GROUP = none →
        check_transaction_state env req = (.skipped, [pickFailWarn])) ∧
    (∀ g, (prepare_message ci m).message.get_property PROPERTY_PRODUCER_GROUP = some g →
        g ∉ ci.producers →
        check_transaction_state env req = (.skipped, [pickFailWarn])) := by
  have key := check_transaction_state_eq env req hdr b m ci h1 h2 h3 h4
  refine ⟨?_, ?_, ?_⟩
  · intro g hg hmem
    rw [key, hg]
    dsimp only
    unfold select_producer
    rw [if_pos hmem]
  · intro hg
    rw [key, hg]
  · intro g hg hmem
    rw [key, hg]
    dsimp only
    unfold select_producer
    rw [if_neg hmem]

/-- C7 witness: the sample check request routes to the producer registered
under `PG1` with the remote address and the prepared message. -/
theorem C7_transaction_check_routing_witness :
    check_transaction_state envW reqCheck =
      (.invoked "PG1" envW.remoteAddress (prepare_message ciW mEmb) hdrW, []) :=
  (C7_transaction_check_routing envW reqCheck hdrW [1] mEmb ciW rfl rfl
      (by decide) rfl).1 "PG1" (by decide) (by decide)

/-- C8: with a client instance configured with namespace `NS` and an
embedded message topic `NS%TopicA`, the message handed to the producer
has topic `TopicA` (the namespace prefix is stripped before lookup). -/
theorem C8_namespace_stripped (env : Env) (req : RemotingCommand)
    (hdr : CheckTransactionStateRequestHeader) (b : ByteList) (m : MessageExt)
    (ci : ClientInstance) (g : String)
    (h1 : req.checkHeader? = some hdr) (h2 : req.body? = some b)
    (h3 : env.decodeMessage b = some m) (h4 : env.clientInstance? = some ci)
    (hns : ci.namespaceCfg = some "NS")
    (htopic : m.get_topic = "NS%TopicA")
    (hg : (prepare_message ci m).message.get_property PROPERTY_PRODUCER_GROUP = some g)
    (hmem : g ∈ ci.producers) :
    check_transaction_state env req =
      (.invoked g env.remoteAddress (prepare_message ci m) hdr, []) ∧
    (prepare_message ci m).get_topic = "TopicA" := by
  constructor
  · rw [check_transaction_state_eq env req hdr b m ci h1 h2 h3 h4, hg]
    dsimp only
    unfold select_producer
    rw [if_pos hmem]
  · rw [prepare_message_topic]
    unfold ClientInstance.get_namespace
    rw [hns]
    dsimp only
    rw [htopic]
    decide

/-- C8 witness: the sample embedded message with topic `NS%TopicA` is handed
over with topic `TopicA`. -/
theorem C8_namespace_stripped_witness :
    check_transaction_state envW reqCheck =
      (.invoked "PG1" envW.remoteAddress (prepare_message ciW mEmb) hdrW, []) ∧
    (prepare_message ciW mEmb).get_topic = "TopicA" :=
  C8_namespace_stripped envW reqCheck hdrW [1] mEmb ciW "PG1" rfl rfl (by decide)
    rfl rfl rfl (by decide) (by decide)

/-- C9: a request with an unrecognized code yields `Ok(None)` with no
registry change, no invocation, no rebalance and only informational log
entries; each of the four recognized-but-unimplemented codes panics with
an explicit not-implemented message instead. -/
theorem C9_dispatch_unknown_and_unimplemented :
    (∀ env req c, req.code = .other c →
        process_request env req =
          { outcome := .ok none, registry := env.registry, invocation := none,
            rebalanced := false,
            logs := [⟨.info, "process_request: " ++ codeName (.other c)⟩,
                     ⟨.info, "Unknown request code: " ++ codeName (.other c)⟩] } ∧
        ∀ e ∈ (process_request env req).logs, e.level = .info) ∧
    (∀ env req, req.code = .ResetConsumerClientOffset →
        (process_request env req).outcome =
          .panic "not implemented: ResetConsumerClientOffset") ∧
    (∀ env req, req.code = .GetConsumerStatusFromClient →
        (process_request env req).outcome =
          .panic "not implemented: GetConsumerStatusFromClient") ∧
    (∀ env req, req.code = .GetConsumerRunningInfo →
        (process_request env req).outcome =
          .panic "not implemented: GetConsumerRunningInfo") ∧
    (∀ env req, req.code = .ConsumeMessageDirectly →
        (process_request env req).outcome =
          .panic "not implemented: ConsumeMessageDirectly") := by
  refine ⟨?_, ?_, ?_, ?_, ?_⟩
  · intro env req c hc
    have key : process_request env req =
        { outcome := .ok none, registry := env.registry, invocation := none,
          rebalanced := false,
          logs := [⟨.info, "process_request: " ++ codeName (.other c)⟩,
                   ⟨.info, "Unknown request code: " ++ codeName (.other c)⟩] } := by
      unfold process_request
      rw [hc]
    refine ⟨key, ?_⟩
    rw [key]
    intro e he
    simp only [List.mem_cons, List.not_mem_nil, or_false] at he
    rcases he with he | he <;> (subst he; rfl)
  · intro env req hc
    unfold process_request
    rw [hc]
  · intro env req hc
    unfold process_request
    rw [hc]
  · intro env req hc
    unfold process_request
    rw [hc]
  · intro env req hc
    unfold process_request
    rw [hc]

/-- C9 witness: the dispatch outcomes at one unknown code and at the four
unimplemented codes. -/
theorem C9_dispatch_witness :
    (process_request envEmpty { code := .other 999 }).outcome = .ok none ∧
    (process_request envEmpty { code := .ResetConsumerClientOffset }).outcome =
      .panic "not implemented: ResetConsumerClientOffset" ∧
    (process_request envEmpty { code := .GetConsumerStatusFromClient }).outcome =
      .panic "not implemented: GetConsumerStatusFromClient" ∧
    (process_request envEmpty { code := .GetConsumerRunningInfo }).outcome =
      .panic "not implemented: GetConsumerRunningInfo" ∧
    (process_request envEmpty { code := .ConsumeMessageDirectly }).outcome =
      .panic "not implemented: ConsumeMessageDirectly" := by
  refine ⟨?_, ?_, ?_, ?_, ?_⟩
  · rw [(C9_dispatch_unknown_and_unimplemented.1 envEmpty
      { code := .other 999 } 999 rfl).1]
  · exact C9_dispatch_unknown_and_unimplemented.2.1 envEmpty
      { code := .ResetConsumerClientOffset } rfl
  · exact C9_dispatch_unknown_and_unimplemented.2.2.1 envEmpty
      { code := .GetConsumerStatusFromClient } rfl
  · exact C9_dispatch_unknown_and_unimplemented.2.2.2.1 envEmpty
      { code := .GetConsumerRunningInfo } rfl
  · exact C9_dispatch_unknown_and_unimplemented.2.2.2.2 envEmpty
      { code := .ConsumeMessageDirectly } rfl

/-- C10: a reply request with the compression bit set but no body (that
decodes and passes host validation) makes `receive_reply_message` panic
on the unguarded unwrap of the optional body instead of returning any
response. -/
theorem C10_compressed_missing_body_panics (env : Env) (req : RemotingCommand)
    (rh : ReplyMessageRequestHeader)
    (hdec : req.replyHeader? = some rh)
    (hflag : Int.land rh.sys_flag COMPRESSED_FLAG = COMPRESSED_FLAG)
    (hbody : req.body? = none)
    (hborn : rh.born_host.isEmpty = true ∨ (env.parseAddr rh.born_host).isSome = true)
    (hstore : rh.store_host.isEmpty = true ∨ (env.parseAddr rh.store_host).isSome = true) :
    receive_reply_message env req = (.panic unwrapPanicMsg, []) := by
  obtain ⟨msg1, hb, _⟩ := parse_born_host_passes env rh (initial_msg rh) hborn
  obtain ⟨msg2, hs, _⟩ := parse_store_host_passes env rh msg1 hstore
  rw [receive_reply_message_eq env req rh hdec, hb]
  dsimp only
  rw [hs]
  dsimp only
  rw [hbody, assemble_body_missing env rh msg2 hflag]

/-- C10 witness: the compressed sample request with an absent body. -/
theorem C10_compressed_missing_body_panics_witness :
    receive_reply_message envW reqNB = (.panic unwrapPanicMsg, []) :=
  C10_compressed_missing_body_panics envW reqNB rhC rfl (by decide) rfl
    (Or.inl (by decide)) (Or.inl (by decide))

end RocketmqClient
